import Mathlib

set_option maxHeartbeats 1000000

/-! Shallow embedding of the authority RBAC package (src/authority.go and the
model declarations in src/unnamed/part_000).

The storage collaborator (bun over a SQL database) is modelled as four
in-memory tables plus a surrogate-id counter.  A select never changes the
state, an insert appends a row carrying a fresh id, a delete filters rows
out.  The foreign keys installed by migrateTables carry ON DELETE CASCADE
from role_permissions and user_roles to roles, and from role_permissions to
permissions, so deleting a roles row also removes the link rows that
reference it.

Each public operation of the Go Authority becomes a function
DB -> arguments -> Except AuthErr result × DB; read operations return the
state they were given, mirroring the fact that their code paths issue only
select queries.  The error-classification behaviour of the lookup helpers is
embedded separately over an explicit scan outcome (ScanResult), so that the
behaviour on a storage failure other than sql.ErrNoRows is captured exactly
as written, fallthrough included. -/

/-- Role row (part_000): surrogate id, unique name, optional title. -/
structure Role where
  id : Nat
  name : String
  title : String
  deriving Repr, DecidableEq

/-- Permission row (part_000): surrogate id, unique name, optional title. -/
structure Permission where
  id : Nat
  name : String
  title : String
  deriving Repr, DecidableEq

/-- RolePermission row (part_000): link between a role and a permission. -/
structure RolePermission where
  id : Nat
  role_id : Nat
  permission_id : Nat
  deriving Repr, DecidableEq

/-- UserRole row (part_000): link between an external user id and a role. -/
structure UserRole where
  id : Nat
  user_id : Nat
  role_id : Nat
  deriving Repr, DecidableEq

/-- The four logical tables plus the autoincrement counter. -/
structure DB where
  roles : List Role
  permissions : List Permission
  role_permissions : List RolePermission
  user_roles : List UserRole
  nextId : Nat
  deriving Repr, DecidableEq

/-- Outcome of a single-row storage scan: a row, sql.ErrNoRows, or some other
storage failure (carried as an opaque code). -/
inductive ScanResult (α : Type) where
  | found : α → ScanResult α
  | noRows : ScanResult α
  | failure : Nat → ScanResult α
  deriving Repr, DecidableEq

/-- The package error values (authority.go lines 28-37) plus an unclassified
storage failure propagated from below. -/
inductive AuthErr where
  | permissionInUse
  | permissionNotFound
  | roleAlreadyAssigned
  | roleInUse
  | roleNotFound
  | rolePermissionNotFound
  | userRoleNotFound
  | roleExists
  | storage : Nat → AuthErr
  deriving Repr, DecidableEq

/-- Deterministic (failure-free) storage: an exact-match select that found no
row reports noRows. -/
def scanOf {α : Type} : Option α → ScanResult α
  | some a => .found a
  | none => .noRows

def selectRoleByName (db : DB) (name : String) : Option Role :=
  db.roles.find? (fun r => r.name == name)

def selectPermByName (db : DB) (name : String) : Option Permission :=
  db.permissions.find? (fun p => p.name == name)

def selectRolePerm (db : DB) (roleID permID : Nat) : Option RolePermission :=
  db.role_permissions.find? (fun rp => rp.role_id == roleID && rp.permission_id == permID)

def selectUserRole (db : DB) (userID roleID : Nat) : Option UserRole :=
  db.user_roles.find? (fun ur => ur.user_id == userID && ur.role_id == roleID)

/-- Zero value of Role: what the Go `var role Role` holds when Scan fails. -/
def zeroRole : Role := ⟨0, "", ""⟩

/-- Zero value of Permission. -/
def zeroPermission : Permission := ⟨0, "", ""⟩

/-- getRole's error classification (authority.go lines 458-468): sql.ErrNoRows
becomes ErrRoleNotFound; any OTHER scan failure falls through the errors.Is
check without a return, so the function reaches `return &role, nil` and hands
back the zero-value row with a nil error. -/
def getRoleScan (res : ScanResult Role) : Except AuthErr Role :=
  match res with
  | .found r => .ok r
  | .noRows => .error .roleNotFound
  | .failure _ => .ok zeroRole

/-- getPermission's error classification (lines 470-481), same fallthrough as
getRoleScan. -/
def getPermissionScan (res : ScanResult Permission) : Except AuthErr Permission :=
  match res with
  | .found p => .ok p
  | .noRows => .error .permissionNotFound
  | .failure _ => .ok zeroPermission

/-- getRolePermission's error classification (lines 483-496): noRows becomes
ErrRolePermissionNotFound and any other failure is returned unchanged. -/
def getRolePermissionScan (res : ScanResult RolePermission) : Except AuthErr RolePermission :=
  match res with
  | .found rp => .ok rp
  | .noRows => .error .rolePermissionNotFound
  | .failure e => .error (.storage e)

/-- getUserRole's error classification (lines 498-510): noRows becomes
ErrUserRoleNotFound and any other failure is returned unchanged. -/
def getUserRoleScan (res : ScanResult UserRole) : Except AuthErr UserRole :=
  match res with
  | .found ur => .ok ur
  | .noRows => .error .userRoleNotFound
  | .failure e => .error (.storage e)

def getRole (db : DB) (roleName : String) : Except AuthErr Role :=
  getRoleScan (scanOf (selectRoleByName db roleName))

def getPermission (db : DB) (permName : String) : Except AuthErr Permission :=
  getPermissionScan (scanOf (selectPermByName db permName))

def getRolePermission (db : DB) (roleID permID : Nat) : Except AuthErr RolePermission :=
  getRolePermissionScan (scanOf (selectRolePerm db roleID permID))

def getUserRole (db : DB) (userID roleID : Nat) : Except AuthErr UserRole :=
  getUserRoleScan (scanOf (selectUserRole db userID roleID))

/-- Insert a Role row; the database assigns the autoincrement id. -/
def insertRole (db : DB) (name : String) : DB :=
  { db with roles := db.roles ++ [⟨db.nextId, name, ""⟩], nextId := db.nextId + 1 }

def insertPermission (db : DB) (name : String) : DB :=
  { db with permissions := db.permissions ++ [⟨db.nextId, name, ""⟩], nextId := db.nextId + 1 }

def insertRolePermission (db : DB) (roleID permID : Nat) : DB :=
  { db with role_permissions := db.role_permissions ++ [⟨db.nextId, roleID, permID⟩],
            nextId := db.nextId + 1 }

def insertUserRole (db : DB) (userID roleID : Nat) : DB :=
  { db with user_roles := db.user_roles ++ [⟨db.nextId, userID, roleID⟩],
            nextId := db.nextId + 1 }

/-- DELETE FROM role_permissions WHERE role_id = ? AND permission_id = ? -/
def deleteRolePerm (db : DB) (roleID permID : Nat) : DB :=
  { db with role_permissions :=
      db.role_permissions.filter (fun rp => !(rp.role_id == roleID && rp.permission_id == permID)) }

/-- DELETE FROM user_roles WHERE user_id = ? AND role_id = ? -/
def deleteUserRoleRows (db : DB) (userID roleID : Nat) : DB :=
  { db with user_roles :=
      db.user_roles.filter (fun ur => !(ur.user_id == userID && ur.role_id == roleID)) }

/-- DELETE FROM roles WHERE name = ?; the ON DELETE CASCADE foreign keys
installed by migrateTables (lines 525-537) also remove the role_permissions
and user_roles rows referencing any deleted role id. -/
def deleteRoleByName (db : DB) (name : String) : DB :=
  let deletedIds := (db.roles.filter (fun r => r.name == name)).map (fun r => r.id)
  { db with
    roles := db.roles.filter (fun r => !(r.name == name)),
    role_permissions := db.role_permissions.filter (fun rp => !(deletedIds.contains rp.role_id)),
    user_roles := db.user_roles.filter (fun ur => !(deletedIds.contains ur.role_id)) }

/-- DELETE FROM permissions WHERE name = ?; cascade removes role_permissions
rows referencing any deleted permission id. -/
def deletePermByName (db : DB) (name : String) : DB :=
  let deletedIds := (db.permissions.filter (fun p => p.name == name)).map (fun p => p.id)
  { db with
    permissions := db.permissions.filter (fun p => !(p.name == name)),
    role_permissions := db.role_permissions.filter (fun rp => !(deletedIds.contains rp.permission_id)) }

/-- CreateRole (lines 65-82): insert only when no row with that name exists. -/
def CreateRole (db : DB) (roleName : String) : Except AuthErr Unit × DB :=
  if db.roles.any (fun r => r.name == roleName) then (.ok (), db)
  else (.ok (), insertRole db roleName)

/-- CreatePermission (lines 86-103): symmetric to CreateRole. -/
def CreatePermission (db : DB) (permName : String) : Except AuthErr Unit × DB :=
  if db.permissions.any (fun p => p.name == permName) then (.ok (), db)
  else (.ok (), insertPermission db permName)

/-- The permission-resolution loop of AssignPermissions (lines 120-127):
resolve every name left to right, stopping at the first failure. -/
def resolvePerms (db : DB) : List String → Except AuthErr (List Permission)
  | [] => .ok []
  | n :: ns =>
    match getPermission db n with
    | .error e => .error e
    | .ok p =>
      match resolvePerms db ns with
      | .error e => .error e
      | .ok ps => .ok (p :: ps)

/-- The insertion loop of AssignPermissions (lines 130-139): for each resolved
permission, look the link up against the current state and insert it only when
the lookup reports it absent. -/
def insertMissingLinks (roleID : Nat) : DB → List Permission → DB
  | db, [] => db
  | db, p :: ps =>
    match selectRolePerm db roleID p.id with
    | some _ => insertMissingLinks roleID db ps
    | none => insertMissingLinks roleID (insertRolePermission db roleID p.id) ps

/-- AssignPermissions (lines 110-142): resolve the role, resolve every named
permission, then insert the links not already present. -/
def AssignPermissions (db : DB) (roleName : String) (permNames : List String) :
    Except AuthErr Unit × DB :=
  match getRole db roleName with
  | .error e => (.error e, db)
  | .ok role =>
    match resolvePerms db permNames with
    | .error e => (.error e, db)
    | .ok perms => (.ok (), insertMissingLinks role.id db perms)

/-- AssignRole (lines 147-167): resolve the role, reject when the (user, role)
link already exists, otherwise insert it. -/
def AssignRole (db : DB) (userID : Nat) (roleName : String) : Except AuthErr Unit × DB :=
  match getRole db roleName with
  | .error e => (.error e, db)
  | .ok role =>
    match selectUserRole db userID role.id with
    | some _ => (.error .roleAlreadyAssigned, db)
    | none => (.ok (), insertUserRole db userID role.id)

/-- CheckRole (lines 173-192): resolve the role; a missing link is a normal
false. -/
def CheckRole (db : DB) (userID : Nat) (roleName : String) : Except AuthErr Bool × DB :=
  match getRole db roleName with
  | .error e => (.error e, db)
  | .ok role =>
    match selectUserRole db userID role.id with
    | some _ => (.ok true, db)
    | none => (.ok false, db)

/-- CheckPermission (lines 197-232): gather the user's role ids, resolve the
permission, then scan for one link whose role_id is among them; any failure of
that last scan (including no rows, and the malformed IN () that an empty id
list produces) yields false with a nil error. -/
def CheckPermission (db : DB) (userID : Nat) (permName : String) : Except AuthErr Bool × DB :=
  match getPermission db permName with
  | .error e => (.error e, db)
  | .ok perm =>
    match db.role_permissions.find? (fun rp =>
        ((db.user_roles.filter (fun ur => ur.user_id == userID)).map
          (fun ur => ur.role_id)).contains rp.role_id
        && rp.permission_id == perm.id) with
    | some _ => (.ok true, db)
    | none => (.ok false, db)

/-- CheckRolePermission (lines 237-262): resolve both entities; a missing link
is a normal false. -/
def CheckRolePermission (db : DB) (roleName permName : String) : Except AuthErr Bool × DB :=
  match getRole db roleName with
  | .error e => (.error e, db)
  | .ok role =>
    match getPermission db permName with
    | .error e => (.error e, db)
    | .ok perm =>
      match selectRolePerm db role.id perm.id with
      | some _ => (.ok true, db)
      | none => (.ok false, db)

/-- RevokeRole (lines 266-281): resolve the role and delete the matching
user_roles rows; deleting nothing is not an error. -/
def RevokeRole (db : DB) (userID : Nat) (roleName : String) : Except AuthErr Unit × DB :=
  match getRole db roleName with
  | .error e => (.error e, db)
  | .ok role => (.ok (), deleteUserRoleRows db userID role.id)

/-- RevokePermission (lines 285-314): for every role of the user, delete the
link to the resolved permission. -/
def RevokePermission (db : DB) (userID : Nat) (permName : String) : Except AuthErr Unit × DB :=
  let userRoles := db.user_roles.filter (fun ur => ur.user_id == userID)
  match getPermission db permName with
  | .error e => (.error e, db)
  | .ok perm =>
    (.ok (), userRoles.foldl (fun acc ur => deleteRolePerm acc ur.role_id perm.id) db)

/-- RevokeRolePermission (lines 318-339): resolve both entities and issue the
delete; the function body ends in `return nil`, not `return err`. -/
def RevokeRolePermission (db : DB) (roleName permName : String) : Except AuthErr Unit × DB :=
  match getRole db roleName with
  | .error e => (.error e, db)
  | .ok role =>
    match getPermission db permName with
    | .error e => (.error e, db)
    | .ok perm => (.ok (), deleteRolePerm db role.id perm.id)

/-- RevokeRolePermission with the storage outcome of its final delete call made
explicit.  The source assigns that outcome's error to err on line 335 but then
executes `return nil` on line 338, so the returned error is Except.ok whatever
the delete reported. -/
def RevokeRolePermissionWithDelete (db : DB) (roleName permName : String)
    (deleteOutcome : Except Nat Unit) : Except AuthErr Unit :=
  match getRole db roleName with
  | .error e => .error e
  | .ok _ =>
    match getPermission db permName with
    | .error e => .error e
    | .ok _ =>
      match deleteOutcome with
      | .error _ => .ok ()
      | .ok _ => .ok ()

/-- GetRoles (lines 342-354): the names of all roles, in storage order. -/
def GetRoles (db : DB) : Except AuthErr (List String) × DB :=
  (.ok (db.roles.map (fun r => r.name)), db)

/-- GetUserRoles (lines 357-376): the names of the user's roles; a role id that
no longer resolves is silently skipped. -/
def GetUserRoles (db : DB) (userID : Nat) : Except AuthErr (List String) × DB :=
  let urs := db.user_roles.filter (fun ur => ur.user_id == userID)
  (.ok (urs.filterMap (fun ur =>
      (db.roles.find? (fun r => r.id == ur.role_id)).map (fun r => r.name))), db)

/-- GetPermissions (lines 379-392): the names of all permissions. -/
def GetPermissions (db : DB) : Except AuthErr (List String) × DB :=
  (.ok (db.permissions.map (fun p => p.name)), db)

/-- DeleteRole (lines 396-427): resolve the role, fail RoleInUse when a
user_roles row references it; note the guard comes first, and that the step
commented `revoke the assignment of permissions` issues a NewSelect, so the
link rows actually disappear through the cascade of the roles delete. -/
def DeleteRole (db : DB) (roleName : String) : Except AuthErr Unit × DB :=
  match getRole db roleName with
  | .error e => (.error e, db)
  | .ok role =>
    match db.user_roles.find? (fun ur => ur.role_id == role.id) with
    | some _ => (.error .roleInUse, db)
    | none => (.ok (), deleteRoleByName db roleName)

/-- DeletePermission (lines 431-456): symmetric guard on role_permissions. -/
def DeletePermission (db : DB) (permName : String) : Except AuthErr Unit × DB :=
  match getPermission db permName with
  | .error e => (.error e, db)
  | .ok perm =>
    match db.role_permissions.find? (fun rp => rp.permission_id == perm.id) with
    | some _ => (.error .permissionInUse, db)
    | none => (.ok (), deletePermByName db permName)

/-- Number of user_roles rows for a given (user, role) pair. -/
def countUserRole (db : DB) (userID roleID : Nat) : Nat :=
  (db.user_roles.filter (fun ur => ur.user_id == userID && ur.role_id == roleID)).length

/-- Number of roles rows with a given name. -/
def countRolesNamed (db : DB) (name : String) : Nat :=
  (db.roles.filter (fun r => r.name == name)).length

/-- Number of permissions rows with a given name. -/
def countPermsNamed (db : DB) (name : String) : Nat :=
  (db.permissions.filter (fun p => p.name == name)).length

/-- A (role id, permission id) pair is linked in the state. -/
def linked (db : DB) (roleID permID : Nat) : Prop :=
  ∃ rp ∈ db.role_permissions, rp.role_id = roleID ∧ rp.permission_id = permID

/-- A populated state: role r (id 1), permission p (id 2), the link between
them, and user 1 holding r; next autoincrement id 5. -/
def dbW : DB := ⟨[⟨1, "r", ""⟩], [⟨2, "p", ""⟩], [⟨3, 1, 2⟩], [⟨4, 1, 1⟩], 5⟩

/-- Like dbW but with no user assignment. -/
def dbFree : DB := ⟨[⟨1, "r", ""⟩], [⟨2, "p", ""⟩], [⟨3, 1, 2⟩], [], 5⟩

/-- The empty initial state. -/
def db0 : DB := ⟨[], [], [], [], 1⟩

theorem selectUserRole_none_iff (db : DB) (u rid : Nat) :
    selectUserRole db u rid = none ↔ countUserRole db u rid = 0 := by
  simp only [selectUserRole, countUserRole, List.find?_eq_none, List.length_eq_zero,
    List.filter_eq_nil_iff]

theorem countUserRole_insert (db : DB) (u rid : Nat) :
    countUserRole (insertUserRole db u rid) u rid = countUserRole db u rid + 1 := by
  simp [countUserRole, insertUserRole, List.filter_append]

/-- Claim C2: the classification of storage scan outcomes in the four lookup
helpers, evaluated at a storage failure that is not sql.ErrNoRows (code 7):
getRole and getPermission return the zero-value entity with a nil error,
while getRolePermission and getUserRole propagate the failure. -/
theorem lookup_helper_failure_classification :
    getRoleScan (ScanResult.failure 7) = Except.ok zeroRole ∧
    getPermissionScan (ScanResult.failure 7) = Except.ok zeroPermission ∧
    getRolePermissionScan (ScanResult.failure 7) = Except.error (AuthErr.storage 7) ∧
    getUserRoleScan (ScanResult.failure 7) = Except.error (AuthErr.storage 7) :=
  ⟨rfl, rfl, rfl, rfl⟩

/-- Claim C7: with role r and permission p both present, RevokeRolePermission
whose delete reports storage failure 7 still returns a nil error: the delete
outcome is discarded by the trailing return nil. -/
theorem RevokeRolePermission_swallows_delete_error :
    RevokeRolePermissionWithDelete dbW "r" "p" (Except.error 7) = Except.ok () := rfl

/-- Claim C10: every read operation returns the state it was given: CheckRole,
CheckPermission, CheckRolePermission, GetRoles, GetUserRoles and GetPermissions
leave all four tables unchanged for every input and every starting state. -/
theorem read_operations_preserve_tables (db : DB) (userID : Nat) (roleName permName : String) :
    (CheckRole db userID roleName).2 = db ∧
    (CheckPermission db userID permName).2 = db ∧
    (CheckRolePermission db roleName permName).2 = db ∧
    (GetRoles db).2 = db ∧
    (GetUserRoles db userID).2 = db ∧
    (GetPermissions db).2 = db := by
  refine ⟨?_, ?_, ?_, rfl, rfl, rfl⟩
  · unfold CheckRole
    split
    · rfl
    · split <;> rfl
  · unfold CheckPermission
    split
    · rfl
    · split <;> rfl
  · unfold CheckRolePermission
    split
    · rfl
    · split
      · rfl
      · split <;> rfl

/-- Claim C8: CheckRole on a role name with no matching Role row returns the
RoleNotFound error, not false; when the role exists but no UserRole link for
(userID, role.id) exists, it returns false with no error. -/
theorem CheckRole_unknown_role_vs_missing_link (db : DB) (u : Nat) (name : String) :
    (selectRoleByName db name = none →
      (CheckRole db u name).1 = Except.error AuthErr.roleNotFound) ∧
    (∀ role, selectRoleByName db name = some role → selectUserRole db u role.id = none →
      (CheckRole db u name).1 = Except.ok false) := by
  constructor
  · intro h
    simp [CheckRole, getRole, scanOf, getRoleScan, h]
  · intro role h hn
    simp [CheckRole, getRole, scanOf, getRoleScan, h, hn]

/-- Witness for C8 at concrete states: an unknown role name errors with
RoleNotFound, and a user without the existing role r gets a plain false. -/
theorem CheckRole_unknown_role_vs_missing_link_witness :
    (CheckRole dbW 1 "nonexistent").1 = Except.error AuthErr.roleNotFound ∧
    (CheckRole dbW 2 "r").1 = Except.ok false :=
  ⟨(CheckRole_unknown_role_vs_missing_link dbW 1 "nonexistent").1 rfl,
   (CheckRole_unknown_role_vs_missing_link dbW 2 "r").2 ⟨1, "r", ""⟩ rfl rfl⟩

theorem filter_length_append_one {α : Type} (l : List α) (p : α → Bool) (x : α)
    (hx : p x = true) : ((l ++ [x]).filter p).length = (l.filter p).length + 1 := by
  simp [List.filter_append, hx]

theorem countRolesNamed_insert (db : DB) (rn : String) :
    countRolesNamed (insertRole db rn) rn = countRolesNamed db rn + 1 := by
  simp [countRolesNamed, insertRole, List.filter_append]

theorem countPermsNamed_insert (db : DB) (pn : String) :
    countPermsNamed (insertPermission db pn) pn = countPermsNamed db pn + 1 := by
  simp [countPermsNamed, insertPermission, List.filter_append]

/-- Claim C3: when the role exists and exactly one UserRole row for
(userID, role.id) exists, AssignRole fails with RoleAlreadyAssigned and the
row count for the pair stays 1; when no such row exists, it succeeds and
inserts exactly one such row. -/
theorem AssignRole_uniqueness (db : DB) (u : Nat) (name : String) (role : Role)
    (h : selectRoleByName db name = some role) :
    (countUserRole db u role.id = 1 →
      (AssignRole db u name).1 = Except.error AuthErr.roleAlreadyAssigned ∧
      countUserRole (AssignRole db u name).2 u role.id = 1) ∧
    (countUserRole db u role.id = 0 →
      (AssignRole db u name).1 = Except.ok () ∧
      countUserRole (AssignRole db u name).2 u role.id = 1) := by
  have hg : getRole db name = Except.ok role := by
    simp [getRole, scanOf, getRoleScan, h]
  constructor
  · intro hc
    rcases ho : selectUserRole db u role.id with _ | ur
    · rw [selectUserRole_none_iff] at ho
      omega
    · have hA : AssignRole db u name = (Except.error AuthErr.roleAlreadyAssigned, db) := by
        simp [AssignRole, hg, ho]
      rw [hA]
      exact ⟨rfl, hc⟩
  · intro hc
    have hn : selectUserRole db u role.id = none := (selectUserRole_none_iff db u role.id).mpr hc
    have hA : AssignRole db u name = (Except.ok (), insertUserRole db u role.id) := by
      simp [AssignRole, hg, hn]
    rw [hA]
    refine ⟨rfl, ?_⟩
    show countUserRole (insertUserRole db u role.id) u role.id = 1
    rw [countUserRole_insert, hc]

/-- Witness for C3: re-assigning role r to user 1 is rejected with the pair
count staying 1, while assigning it to user 2 succeeds. -/
theorem AssignRole_uniqueness_witness :
    ((AssignRole dbW 1 "r").1 = Except.error AuthErr.roleAlreadyAssigned ∧
      countUserRole (AssignRole dbW 1 "r").2 1 1 = 1) ∧
    (AssignRole dbW 2 "r").1 = Except.ok () :=
  ⟨(AssignRole_uniqueness dbW 1 "r" ⟨1, "r", ""⟩ rfl).1 (by decide),
   ((AssignRole_uniqueness dbW 2 "r" ⟨1, "r", ""⟩ rfl).2 (by decide)).1⟩

/-- Claim C4: when the role exists and at least one UserRole row references it,
DeleteRole returns RoleInUse and the state, all four tables included, is
exactly the input state: the guard fires before anything is removed. -/
theorem DeleteRole_blocked_when_in_use (db : DB) (name : String) (role : Role)
    (h : selectRoleByName db name = some role)
    (hused : ∃ ur ∈ db.user_roles, ur.role_id = role.id) :
    DeleteRole db name = (Except.error AuthErr.roleInUse, db) := by
  have hg : getRole db name = Except.ok role := by
    simp [getRole, scanOf, getRoleScan, h]
  rcases hf : db.user_roles.find? (fun ur => ur.role_id == role.id) with _ | ur
  · exfalso
    rcases hused with ⟨ur, hm, he⟩
    exact absurd (by simp [he] : (fun ur => ur.role_id == role.id) ur = true)
      (List.find?_eq_none.mp hf ur hm)
  · simp [DeleteRole, hg, hf]

/-- Witness for C4: role r is held by user 1, so DeleteRole fails with
RoleInUse and dbW is returned untouched. -/
theorem DeleteRole_blocked_when_in_use_witness :
    DeleteRole dbW "r" = (Except.error AuthErr.roleInUse, dbW) :=
  DeleteRole_blocked_when_in_use dbW "r" ⟨1, "r", ""⟩ rfl ⟨⟨4, 1, 1⟩, by simp [dbW], rfl⟩

/-- Claim C9: starting from a state where the name occurs at most once (the
uniqueness invariant), two successive CreateRole calls both return no error,
the second call is a no-op on the state, and exactly one Role row with that
name remains; CreatePermission behaves symmetrically. -/
theorem create_role_and_permission_idempotent (db : DB) (rn pn : String)
    (hr : countRolesNamed db rn ≤ 1) (hp : countPermsNamed db pn ≤ 1) :
    ((CreateRole db rn).1 = Except.ok () ∧
      (CreateRole (CreateRole db rn).2 rn).1 = Except.ok () ∧
      (CreateRole (CreateRole db rn).2 rn).2 = (CreateRole db rn).2 ∧
      countRolesNamed (CreateRole (CreateRole db rn).2 rn).2 rn = 1) ∧
    ((CreatePermission db pn).1 = Except.ok () ∧
      (CreatePermission (CreatePermission db pn).2 pn).1 = Except.ok () ∧
      (CreatePermission (CreatePermission db pn).2 pn).2 = (CreatePermission db pn).2 ∧
      countPermsNamed (CreatePermission (CreatePermission db pn).2 pn).2 pn = 1) := by
  constructor
  · by_cases hA : db.roles.any (fun r => r.name == rn) = true
    · have h1 : CreateRole db rn = (Except.ok (), db) := by simp [CreateRole, hA]
      have hge : 0 < countRolesNamed db rn := by
        rcases List.any_eq_true.mp hA with ⟨r, hm, hpr⟩
        exact List.length_pos.mpr
          (List.ne_nil_of_mem (List.mem_filter.mpr ⟨hm, hpr⟩))
      refine ⟨by rw [h1], ?_, ?_, ?_⟩
      · rw [h1]
        show (CreateRole db rn).1 = Except.ok ()
        rw [h1]
      · rw [h1]
        show (CreateRole db rn).2 = db
        rw [h1]
      · rw [h1]
        show countRolesNamed (CreateRole db rn).2 rn = 1
        rw [h1]
        show countRolesNamed db rn = 1
        omega
    · have hA' : db.roles.any (fun r => r.name == rn) = false :=
        Bool.eq_false_iff.mpr hA
      have h1 : CreateRole db rn = (Except.ok (), insertRole db rn) := by
        simp [CreateRole, hA']
      have hc0 : countRolesNamed db rn = 0 := by
        rw [countRolesNamed, List.length_eq_zero, List.filter_eq_nil_iff]
        intro r hm hpr
        exact hA (List.any_eq_true.mpr ⟨r, hm, hpr⟩)
      have hcount1 : countRolesNamed (insertRole db rn) rn = 1 := by
        rw [countRolesNamed_insert, hc0]
      have hA2 : (insertRole db rn).roles.any (fun r => r.name == rn) = true := by
        rw [List.any_eq_true]
        exact ⟨⟨db.nextId, rn, ""⟩, by simp [insertRole], by simp⟩
      have h2 : CreateRole (insertRole db rn) rn = (Except.ok (), insertRole db rn) := by
        simp [CreateRole, hA2]
      refine ⟨by rw [h1], ?_, ?_, ?_⟩
      · rw [h1]
        show (CreateRole (insertRole db rn) rn).1 = Except.ok ()
        rw [h2]
      · rw [h1]
        show (CreateRole (insertRole db rn) rn).2 = insertRole db rn
        rw [h2]
      · rw [h1]
        show countRolesNamed (CreateRole (insertRole db rn) rn).2 rn = 1
        rw [h2]
        exact hcount1
  · by_cases hA : db.permissions.any (fun p => p.name == pn) = true
    · have h1 : CreatePermission db pn = (Except.ok (), db) := by simp [CreatePermission, hA]
      have hge : 0 < countPermsNamed db pn := by
        rcases List.any_eq_true.mp hA with ⟨p, hm, hpr⟩
        exact List.length_pos.mpr
          (List.ne_nil_of_mem (List.mem_filter.mpr ⟨hm, hpr⟩))
      refine ⟨by rw [h1], ?_, ?_, ?_⟩
      · rw [h1]
        show (CreatePermission db pn).1 = Except.ok ()
        rw [h1]
      · rw [h1]
        show (CreatePermission db pn).2 = db
        rw [h1]
      · rw [h1]
        show countPermsNamed (CreatePermission db pn).2 pn = 1
        rw [h1]
        show countPermsNamed db pn = 1
        omega
    · have hA' : db.permissions.any (fun p => p.name == pn) = false :=
        Bool.eq_false_iff.mpr hA
      have h1 : CreatePermission db pn = (Except.ok (), insertPermission db pn) := by
        simp [CreatePermission, hA']
      have hc0 : countPermsNamed db pn = 0 := by
        rw [countPermsNamed, List.length_eq_zero, List.filter_eq_nil_iff]
        intro p hm hpr
        exact hA (List.any_eq_true.mpr ⟨p, hm, hpr⟩)
      have hcount1 : countPermsNamed (insertPermission db pn) pn = 1 := by
        rw [countPermsNamed_insert, hc0]
      have hA2 : (insertPermission db pn).permissions.any (fun p => p.name == pn) = true := by
        rw [List.any_eq_true]
        exact ⟨⟨db.nextId, pn, ""⟩, by simp [insertPermission], by simp⟩
      have h2 : CreatePermission (insertPermission db pn) pn =
          (Except.ok (), insertPermission db pn) := by
        simp [CreatePermission, hA2]
      refine ⟨by rw [h1], ?_, ?_, ?_⟩
      · rw [h1]
        show (CreatePermission (insertPermission db pn) pn).1 = Except.ok ()
        rw [h2]
      · rw [h1]
        show (CreatePermission (insertPermission db pn) pn).2 = insertPermission db pn
        rw [h2]
      · rw [h1]
        show countPermsNamed (CreatePermission (insertPermission db pn) pn).2 pn = 1
        rw [h2]
        exact hcount1

/-- Witness for C9: from the empty state, the second CreateRole r call leaves
the state of the first untouched with one Role row named r, and likewise for
CreatePermission p. -/
theorem create_role_and_permission_idempotent_witness :
    ((CreateRole (CreateRole db0 "r").2 "r").2 = (CreateRole db0 "r").2 ∧
      countRolesNamed (CreateRole (CreateRole db0 "r").2 "r").2 "r" = 1) ∧
    ((CreatePermission (CreatePermission db0 "p").2 "p").2 = (CreatePermission db0 "p").2 ∧
      countPermsNamed (CreatePermission (CreatePermission db0 "p").2 "p").2 "p" = 1) := by
  have H := create_role_and_permission_idempotent db0 "r" "p" (by decide) (by decide)
  exact ⟨⟨H.1.2.2.1, H.1.2.2.2⟩, ⟨H.2.2.2.1, H.2.2.2.2⟩⟩

/-- Claim C5: when the permission exists, CheckPermission returns ok b where b
is true exactly when some role held by the user links to that permission. -/
theorem CheckPermission_propagation (db : DB) (u : Nat) (pname : String) (perm : Permission)
    (h : selectPermByName db pname = some perm) :
    ∃ b, (CheckPermission db u pname).1 = Except.ok b ∧
      (b = true ↔ ∃ ur ∈ db.user_roles, ur.user_id = u ∧
        ∃ rp ∈ db.role_permissions, rp.role_id = ur.role_id ∧ rp.permission_id = perm.id) := by
  have hg : getPermission db pname = Except.ok perm := by
    simp [getPermission, scanOf, getPermissionScan, h]
  have hmem : ∀ rid : Nat,
      (((db.user_roles.filter (fun ur => ur.user_id == u)).map
        (fun ur => ur.role_id)).contains rid) = true ↔
      ∃ ur ∈ db.user_roles, ur.user_id = u ∧ ur.role_id = rid := by
    intro rid
    unfold List.contains
    rw [List.elem_iff]
    constructor
    · intro hm
      rcases List.mem_map.mp hm with ⟨ur, hmf, he⟩
      rcases List.mem_filter.mp hmf with ⟨hm2, hprd⟩
      exact ⟨ur, hm2, by simpa using hprd, he⟩
    · rintro ⟨ur, hm2, hu, he⟩
      exact List.mem_map.mpr ⟨ur, List.mem_filter.mpr ⟨hm2, by simp [hu]⟩, he⟩
  rcases hf : db.role_permissions.find? (fun rp =>
      ((db.user_roles.filter (fun ur => ur.user_id == u)).map
        (fun ur => ur.role_id)).contains rp.role_id
      && rp.permission_id == perm.id) with _ | rp0
  · refine ⟨false, ?_, ?_⟩
    · unfold CheckPermission
      rw [hg]
      dsimp only
      rw [hf]
    · simp only [Bool.false_eq_true, false_iff]
      rintro ⟨ur, hur, huid, rp, hrp, hrid, hpid⟩
      have hnp := List.find?_eq_none.mp hf rp hrp
      apply hnp
      show ((((db.user_roles.filter (fun ur => ur.user_id == u)).map
          (fun ur => ur.role_id)).contains rp.role_id)
          && rp.permission_id == perm.id) = true
      rw [Bool.and_eq_true]
      refine ⟨(hmem rp.role_id).mpr ⟨ur, hur, huid, hrid.symm⟩, by simp [hpid]⟩
  · refine ⟨true, ?_, ?_⟩
    · unfold CheckPermission
      rw [hg]
      dsimp only
      rw [hf]
    · simp only [true_iff]
      have hprd := List.find?_some hf
      simp only [Bool.and_eq_true] at hprd
      rcases hprd with ⟨hc, hpe⟩
      have hm0 := List.mem_of_find?_eq_some hf
      rcases (hmem rp0.role_id).mp hc with ⟨ur, hur, huid, hrid⟩
      exact ⟨ur, hur, huid, rp0, hm0, hrid.symm, by simpa using hpe⟩

/-- Witness for C5: user 1 holds role r which links permission p, so the check
is true; after RevokeRolePermission r p removes the only link, it is false. -/
theorem CheckPermission_propagation_witness :
    (CheckPermission dbW 1 "p").1 = Except.ok true ∧
    (CheckPermission (RevokeRolePermission dbW "r" "p").2 1 "p").1 = Except.ok false := by
  constructor
  · rcases CheckPermission_propagation dbW 1 "p" ⟨2, "p", ""⟩ rfl with ⟨b, hb, hiff⟩
    have hbt : b = true :=
      hiff.mpr ⟨⟨4, 1, 1⟩, by simp [dbW], rfl, ⟨3, 1, 2⟩, by simp [dbW], rfl, rfl⟩
    rw [hb, hbt]
  · rcases CheckPermission_propagation (RevokeRolePermission dbW "r" "p").2 1 "p"
      ⟨2, "p", ""⟩ rfl with ⟨b, hb, hiff⟩
    cases b with
    | false => exact hb
    | true =>
      exfalso
      rcases hiff.mp rfl with ⟨ur, hur, huid, rp, hrp, hrid, hpid⟩
      have hempty : (RevokeRolePermission dbW "r" "p").2.role_permissions = [] := rfl
      rw [hempty] at hrp
      exact absurd hrp (List.not_mem_nil rp)

theorem deleteRoleByName_fields (db : DB) (name : String) :
    (deleteRoleByName db name).roles = db.roles.filter (fun r => !(r.name == name)) ∧
    (deleteRoleByName db name).role_permissions = db.role_permissions.filter
      (fun rp => !(((db.roles.filter (fun r => r.name == name)).map
        (fun r => r.id)).contains rp.role_id)) ∧
    (deleteRoleByName db name).user_roles = db.user_roles.filter
      (fun ur => !(((db.roles.filter (fun r => r.name == name)).map
        (fun r => r.id)).contains ur.role_id)) :=
  ⟨rfl, rfl, rfl⟩

/-- Claim C1: when the role exists and no UserRole references it, DeleteRole
succeeds, the resulting state has no RolePermission row with that role id and
no Role row with that name, and GetRoles on it excludes the name. -/
theorem DeleteRole_success (db : DB) (name : String) (role : Role)
    (h : selectRoleByName db name = some role)
    (hfree : ∀ ur ∈ db.user_roles, ur.role_id ≠ role.id) :
    (DeleteRole db name).1 = Except.ok () ∧
    (∀ rp ∈ (DeleteRole db name).2.role_permissions, rp.role_id ≠ role.id) ∧
    (∀ r ∈ (DeleteRole db name).2.roles, r.name ≠ name) ∧
    (∃ ns, (GetRoles (DeleteRole db name).2).1 = Except.ok ns ∧ name ∉ ns) := by
  have hg : getRole db name = Except.ok role := by
    simp [getRole, scanOf, getRoleScan, h]
  have hguard : db.user_roles.find? (fun ur => ur.role_id == role.id) = none := by
    rw [List.find?_eq_none]
    intro ur hm
    simp [hfree ur hm]
  have hD : DeleteRole db name = (Except.ok (), deleteRoleByName db name) := by
    simp [DeleteRole, hg, hguard]
  have hrole_mem : role ∈ db.roles := List.mem_of_find?_eq_some h
  have hrole_name : role.name = name := by
    have := List.find?_some h
    simpa using this
  have hid_contains : ((db.roles.filter (fun r => r.name == name)).map
      (fun r => r.id)).contains role.id = true := by
    unfold List.contains
    exact List.elem_iff.mpr
      (List.mem_map.mpr ⟨role, List.mem_filter.mpr ⟨hrole_mem, by simp [hrole_name]⟩, rfl⟩)
  have hnames : ∀ r ∈ (deleteRoleByName db name).roles, r.name ≠ name := by
    intro r hm
    rw [(deleteRoleByName_fields db name).1] at hm
    rcases List.mem_filter.mp hm with ⟨_, hprd⟩
    rw [Bool.not_eq_true'] at hprd
    intro he
    rw [he] at hprd
    simp at hprd
  rw [hD]
  dsimp only
  refine ⟨rfl, ?_, hnames, ?_⟩
  · intro rp hm
    rw [(deleteRoleByName_fields db name).2.1] at hm
    rcases List.mem_filter.mp hm with ⟨_, hprd⟩
    rw [Bool.not_eq_true'] at hprd
    intro he
    rw [he] at hprd
    rw [hid_contains] at hprd
    simp at hprd
  · refine ⟨List.map (fun r : Role => r.name) (deleteRoleByName db name).roles, rfl, ?_⟩
    intro hmm
    rcases List.mem_map.mp hmm with ⟨r, hr, he⟩
    exact hnames r hr he

/-- Witness for C1: in dbFree role r has a permission link but no user holds
it; DeleteRole succeeds and GetRoles afterwards excludes r. -/
theorem DeleteRole_success_witness :
    (DeleteRole dbFree "r").1 = Except.ok () ∧
    (∃ ns, (GetRoles (DeleteRole dbFree "r").2).1 = Except.ok ns ∧ "r" ∉ ns) := by
  have H := DeleteRole_success dbFree "r" ⟨1, "r", ""⟩ rfl
    (by intro ur hm; simp [dbFree] at hm)
  exact ⟨H.1, H.2.2.2⟩

theorem insertMissingLinks_cons_some (rid : Nat) (db : DB) (p : Permission)
    (ps : List Permission) (rp0 : RolePermission)
    (hs : selectRolePerm db rid p.id = some rp0) :
    insertMissingLinks rid db (p :: ps) = insertMissingLinks rid db ps := by
  simp only [insertMissingLinks]
  rw [hs]

theorem insertMissingLinks_cons_none (rid : Nat) (db : DB) (p : Permission)
    (ps : List Permission) (hs : selectRolePerm db rid p.id = none) :
    insertMissingLinks rid db (p :: ps) =
      insertMissingLinks rid (insertRolePermission db rid p.id) ps := by
  simp only [insertMissingLinks]
  rw [hs]

theorem insertMissingLinks_frame (rid : Nat) (ps : List Permission) :
    ∀ db : DB, (insertMissingLinks rid db ps).roles = db.roles ∧
      (insertMissingLinks rid db ps).permissions = db.permissions ∧
      (insertMissingLinks rid db ps).user_roles = db.user_roles := by
  induction ps with
  | nil => intro db; exact ⟨rfl, rfl, rfl⟩
  | cons p ps ih =>
    intro db
    rcases hs : selectRolePerm db rid p.id with _ | rp0
    · rw [insertMissingLinks_cons_none rid db p ps hs]
      rcases ih (insertRolePermission db rid p.id) with ⟨h1, h2, h3⟩
      exact ⟨h1, h2, h3⟩
    · rw [insertMissingLinks_cons_some rid db p ps rp0 hs]
      exact ih db

theorem insertMissingLinks_mono (rid : Nat) (ps : List Permission) :
    ∀ (db : DB) (rp : RolePermission), rp ∈ db.role_permissions →
      rp ∈ (insertMissingLinks rid db ps).role_permissions := by
  induction ps with
  | nil => intro db rp hm; exact hm
  | cons p ps ih =>
    intro db rp hm
    rcases hs : selectRolePerm db rid p.id with _ | rp0
    · rw [insertMissingLinks_cons_none rid db p ps hs]
      refine ih (insertRolePermission db rid p.id) rp ?_
      show rp ∈ db.role_permissions ++ [⟨db.nextId, rid, p.id⟩]
      exact List.mem_append.mpr (Or.inl hm)
    · rw [insertMissingLinks_cons_some rid db p ps rp0 hs]
      exact ih db rp hm

theorem linked_insertMissingLinks (rid q : Nat) (ps : List Permission) (db : DB)
    (h : linked db rid q) : linked (insertMissingLinks rid db ps) rid q := by
  rcases h with ⟨rp, hm, h1, h2⟩
  exact ⟨rp, insertMissingLinks_mono rid ps db rp hm, h1, h2⟩

theorem insertMissingLinks_links_all (rid : Nat) (ps : List Permission) :
    ∀ db : DB, ∀ p ∈ ps, linked (insertMissingLinks rid db ps) rid p.id := by
  induction ps with
  | nil => intro db p hp; exact absurd hp (List.not_mem_nil p)
  | cons q ps ih =>
    intro db p hp
    rcases hs : selectRolePerm db rid q.id with _ | rp0
    · rw [insertMissingLinks_cons_none rid db q ps hs]
      rcases List.mem_cons.mp hp with he | hmem
      · subst he
        refine linked_insertMissingLinks rid p.id ps (insertRolePermission db rid p.id) ?_
        refine ⟨⟨db.nextId, rid, p.id⟩, ?_, rfl, rfl⟩
        show (⟨db.nextId, rid, p.id⟩ : RolePermission) ∈
          db.role_permissions ++ [⟨db.nextId, rid, p.id⟩]
        exact List.mem_append.mpr (Or.inr (List.mem_singleton.mpr rfl))
      · exact ih (insertRolePermission db rid q.id) p hmem
    · rw [insertMissingLinks_cons_some rid db q ps rp0 hs]
      rcases List.mem_cons.mp hp with he | hmem
      · subst he
        refine linked_insertMissingLinks rid p.id ps db ?_
        have hprd := List.find?_some hs
        simp only [Bool.and_eq_true] at hprd
        rcases hprd with ⟨h1, h2⟩
        exact ⟨rp0, List.mem_of_find?_eq_some hs, by simpa using h1, by simpa using h2⟩
      · exact ih db p hmem

theorem resolvePerms_error (db : DB) (ns : List String)
    (hex : ∃ nm ∈ ns, selectPermByName db nm = none) :
    resolvePerms db ns = Except.error AuthErr.permissionNotFound := by
  induction ns with
  | nil => rcases hex with ⟨nm, hm, _⟩; exact absurd hm (List.not_mem_nil nm)
  | cons n ns ih =>
    rcases hex with ⟨nm, hm, hnone⟩
    rcases List.mem_cons.mp hm with he | hmem
    · subst he
      simp [resolvePerms, getPermission, scanOf, getPermissionScan, hnone]
    · rcases hsel : selectPermByName db n with _ | p
      · simp [resolvePerms, getPermission, scanOf, getPermissionScan, hsel]
      · have hres := ih ⟨nm, hmem, hnone⟩
        simp [resolvePerms, getPermission, scanOf, getPermissionScan, hsel, hres]

theorem resolvePerms_ok (db : DB) (ns : List String)
    (hall : ∀ nm ∈ ns, ∃ p, selectPermByName db nm = some p) :
    ∃ ps, resolvePerms db ns = Except.ok ps ∧
      ∀ nm ∈ ns, ∀ p, selectPermByName db nm = some p → p ∈ ps := by
  induction ns with
  | nil =>
    refine ⟨[], rfl, ?_⟩
    intro nm hm
    exact absurd hm (List.not_mem_nil nm)
  | cons n ns ih =>
    rcases hall n (List.mem_cons_self n ns) with ⟨p, hp⟩
    rcases ih (fun nm hm => hall nm (List.mem_cons_of_mem n hm)) with ⟨ps, hps, hin⟩
    refine ⟨p :: ps, ?_, ?_⟩
    · simp [resolvePerms, getPermission, scanOf, getPermissionScan, hp, hps]
    · intro nm hm q hq
      rcases List.mem_cons.mp hm with he | hmem
      · subst he
        rw [hp] at hq
        injection hq with hq
        rw [← hq]
        exact List.mem_cons_self p ps
      · exact List.mem_cons_of_mem p (hin nm hmem q hq)

/-- Claim C6: with the role resolved, AssignPermissions fails with
PermissionNotFound and leaves the state untouched when any named permission is
absent; when all exist it succeeds, changes no other table, keeps every
existing RolePermission row and links the role to every named permission. -/
theorem AssignPermissions_batch (db : DB) (rname : String) (pnames : List String) (role : Role)
    (h : selectRoleByName db rname = some role) :
    ((∃ nm ∈ pnames, selectPermByName db nm = none) →
      AssignPermissions db rname pnames = (Except.error AuthErr.permissionNotFound, db)) ∧
    ((∀ nm ∈ pnames, ∃ p, selectPermByName db nm = some p) →
      (AssignPermissions db rname pnames).1 = Except.ok () ∧
      (AssignPermissions db rname pnames).2.roles = db.roles ∧
      (AssignPermissions db rname pnames).2.permissions = db.permissions ∧
      (AssignPermissions db rname pnames).2.user_roles = db.user_roles ∧
      (∀ rp ∈ db.role_permissions, rp ∈ (AssignPermissions db rname pnames).2.role_permissions) ∧
      (∀ nm ∈ pnames, ∀ p, selectPermByName db nm = some p →
        linked (AssignPermissions db rname pnames).2 role.id p.id)) := by
  have hg : getRole db rname = Except.ok role := by
    simp [getRole, scanOf, getRoleScan, h]
  constructor
  · intro hex
    have hres := resolvePerms_error db pnames hex
    simp [AssignPermissions, hg, hres]
  · intro hall
    rcases resolvePerms_ok db pnames hall with ⟨ps, hres, hin⟩
    have hA : AssignPermissions db rname pnames =
        (Except.ok (), insertMissingLinks role.id db ps) := by
      simp [AssignPermissions, hg, hres]
    rw [hA]
    rcases insertMissingLinks_frame role.id ps db with ⟨f1, f2, f3⟩
    refine ⟨rfl, f1, f2, f3, ?_, ?_⟩
    · intro rp hm
      exact insertMissingLinks_mono role.id ps db rp hm
    · intro nm hnm p hp
      exact insertMissingLinks_links_all role.id ps db p (hin nm hnm p hp)

/-- Witness for C6: against dbFree, the batch [p, missing] fails with
PermissionNotFound and no effect, while the batch [p] succeeds. -/
theorem AssignPermissions_batch_witness :
    AssignPermissions dbFree "r" ["p", "missing"] =
      (Except.error AuthErr.permissionNotFound, dbFree) ∧
    (AssignPermissions dbFree "r" ["p"]).1 = Except.ok () := by
  constructor
  · exact (AssignPermissions_batch dbFree "r" ["p", "missing"] ⟨1, "r", ""⟩ rfl).1
      ⟨"missing", List.mem_cons_of_mem "p" (List.mem_cons_self "missing" []), rfl⟩
  · refine ((AssignPermissions_batch dbFree "r" ["p"] ⟨1, "r", ""⟩ rfl).2 ?_).1
    intro nm hnm
    rcases List.mem_cons.mp hnm with he | hmem
    · subst he
      exact ⟨⟨2, "p", ""⟩, rfl⟩
    · exact absurd hmem (List.not_mem_nil nm)
